import Mathlib

/-!
Verification of the NetKet sampler binding layer
(`src/NetKet/Sampler/pysampler.hpp`).

The source file registers, in the submodule `sampler`, an abstract base
class `Sampler` (the pybind11 name of `AbSamplerType`) and ten concrete
sampler classes, each derived from that base.  Each registration binds a
constructor (`py::init<...>` with named, possibly defaulted arguments) and
the five contract methods added by the `ADDSAMPLERMETHODS` macro.

We embed this registration table as data: one record per `py::class_`
call, carrying the python-side class name, whether the class is registered
with `AbSamplerType` as base, the bound constructor argument list
(`none` when no `py::init` is bound), and the list of bound method names.
The table `AddSamplerModule` below is a line-by-line transcription of the
function of the same name in the source.

The bodies of the sampler constructors themselves (the headers
`custom_sampler.hpp`, `metropolis_local_pt.hpp`, …) are not part of the
given sources; where a claim depends on their behaviour (replica-count
validation, move-weight defaulting) we model that behaviour from the
specification, in clearly marked definitions.
-/

/-- A default value attached to a pybind11 constructor argument.  The
source uses two kinds: the integer literal `1` (for `d_max` and
`n_replicas`) and the empty `std::vector<double>()` (for `move_weights`). -/
inductive PyDefault where
  | intLit (n : Int)
  | emptyDoubleVector
  deriving DecidableEq, Repr

/-- One named constructor argument of a `py::init` binding: the
`py::arg("...")` name and its default value, if any. -/
structure PyArg where
  name : String
  dflt : Option PyDefault
  deriving DecidableEq, Repr

/-- One `py::class_` registration: the python-side class name, whether it
is registered with `AbSamplerType` as its base class, the argument list of
the bound `py::init` constructor (`none` when no constructor is bound),
and the names of the bound methods. -/
structure ClassBinding where
  className : String
  hasSamplerBase : Bool
  ctorArgs : Option (List PyArg)
  methods : List String
  deriving DecidableEq, Repr

/-- The five method bindings added by the `ADDSAMPLERMETHODS` macro in the
source: `reset`, `sweep`, `get_visible`, `set_visible`, `acceptance`,
bound to `Reset`, `Sweep`, `Visible`, `SetVisible`, `Acceptance`. -/
def ADDSAMPLERMETHODS : List String :=
  ["reset", "sweep", "get_visible", "set_visible", "acceptance"]

/-- The registration table built by `AddSamplerModule` in
`pysampler.hpp`, one entry per `py::class_` call, in source order. -/
def AddSamplerModule : List ClassBinding :=
  [ ⟨"Sampler", false, none, ADDSAMPLERMETHODS⟩,
    ⟨"MetropolisLocal", true,
      some [⟨"machine", none⟩],
      ADDSAMPLERMETHODS⟩,
    ⟨"MetropolisLocalPt", true,
      some [⟨"machine", none⟩, ⟨"n_replicas", none⟩],
      ADDSAMPLERMETHODS⟩,
    ⟨"MetropolisHop", true,
      some [⟨"graph", none⟩, ⟨"machine", none⟩, ⟨"d_max", none⟩],
      ADDSAMPLERMETHODS⟩,
    ⟨"MetropolisHamiltonian", true,
      some [⟨"machine", none⟩, ⟨"hamiltonian", none⟩],
      ADDSAMPLERMETHODS⟩,
    ⟨"MetropolisHamiltonianPt", true,
      some [⟨"machine", none⟩, ⟨"hamiltonian", none⟩, ⟨"n_replicas", none⟩],
      ADDSAMPLERMETHODS⟩,
    ⟨"MetropolisExchange", true,
      some [⟨"graph", none⟩, ⟨"machine", none⟩,
            ⟨"d_max", some (.intLit 1)⟩],
      ADDSAMPLERMETHODS⟩,
    ⟨"MetropolisExchangePt", true,
      some [⟨"graph", none⟩, ⟨"machine", none⟩,
            ⟨"d_max", some (.intLit 1)⟩, ⟨"n_replicas", some (.intLit 1)⟩],
      ADDSAMPLERMETHODS⟩,
    ⟨"ExactSampler", true,
      some [⟨"machine", none⟩],
      ADDSAMPLERMETHODS⟩,
    ⟨"CustomSampler", true,
      some [⟨"machine", none⟩, ⟨"move_operators", none⟩,
            ⟨"acting_on", none⟩,
            ⟨"move_weights", some .emptyDoubleVector⟩],
      ADDSAMPLERMETHODS⟩,
    ⟨"CustomSamplerPt", true,
      some [⟨"machine", none⟩, ⟨"move_operators", none⟩,
            ⟨"acting_on", none⟩,
            ⟨"move_weights", some .emptyDoubleVector⟩,
            ⟨"nreplicas", none⟩],
      ADDSAMPLERMETHODS⟩ ]

/-- Look up a registered class by its python-side name. -/
def findClass (cls : String) : Option ClassBinding :=
  AddSamplerModule.find? (fun b => b.className = cls)

/-- The constructor argument names of a registered class, in order,
or `none` when the class is unknown or binds no constructor. -/
def ctorArgNames (cls : String) : Option (List String) :=
  (findClass cls).bind (fun b => b.ctorArgs.map (List.map PyArg.name))

/-- The default value of a named constructor argument of a registered
class: `none` when the class, the constructor or the argument is missing,
`some none` when the argument exists but has no default, `some (some d)`
when it defaults to `d`. -/
def argDefault (cls arg : String) : Option (Option PyDefault) :=
  (findClass cls).bind (fun b =>
    b.ctorArgs.bind (fun args =>
      (args.find? (fun a => a.name = arg)).map PyArg.dflt))

/-- Whether a registered class binds a constructor argument of the given
name. -/
def hasArgNamed (cls arg : String) : Bool :=
  match ctorArgNames cls with
  | some names => names.contains arg
  | none => false

/-- Whether a registered class binds a constructor argument of the given
name with no default value (a required argument). -/
def hasRequiredArg (cls arg : String) : Bool :=
  argDefault cls arg = some none

/-- The ten concrete sampler classes registered by `AddSamplerModule`,
in source order. -/
def concreteSamplerNames : List String :=
  ["MetropolisLocal", "MetropolisLocalPt", "MetropolisHop",
   "MetropolisHamiltonian", "MetropolisHamiltonianPt",
   "MetropolisExchange", "MetropolisExchangePt", "ExactSampler",
   "CustomSampler", "CustomSamplerPt"]

/-- The four parallel-tempering sampler classes registered by
`AddSamplerModule`. -/
def ptSamplerNames : List String :=
  ["MetropolisLocalPt", "MetropolisHamiltonianPt",
   "MetropolisExchangePt", "CustomSamplerPt"]

/-- Errors the sampler constructors can raise, per §7 of the spec. -/
inductive SamplerError where
  | ConstructionError
  deriving DecidableEq, Repr

/-- Modelled from the spec: replica-count validation performed by the
parallel-tempering sampler constructors (`metropolis_local_pt.hpp`,
`metropolis_hamiltonian_pt.hpp`, `metropolis_exchange_pt.hpp`,
`custom_sampler_pt.hpp` are not among the given sources).  Per §7,
"`ConstructionError` (… n_replicas ≤ 0 …)" and §8, "Construction with
`n_replicas = 0` fails with `ConstructionError`". -/
def validateReplicas (nreplicas : Int) : Except SamplerError Nat :=
  if nreplicas ≤ 0 then .error .ConstructionError else .ok nreplicas.toNat

/-- The state a successfully constructed Custom sampler keeps of its move
operator set, as far as the claims need it: the number of move operators
and the selection weight of each. -/
structure CustomSamplerState where
  nOperators : Nat
  weights : List ℚ
  deriving DecidableEq, Repr

/-- Modelled from the spec: the Custom sampler constructor's validation
and move-weight defaulting (`custom_sampler.hpp` is not among the given
sources).  Per §3, "Invariant: matrix count, acting_on count, and weight
count must agree (weights default to uniform when unset)", and §7/§8,
construction with mismatched `move_operators`/`acting_on` lengths fails
with `ConstructionError`.  The binding passes `move_weights` as an empty
vector when the caller omits it; an empty weight list therefore means
"unset" and yields equal weight for every operator. -/
def CustomSampler.construct (nMoveOps nActingOn : Nat)
    (moveWeights : List ℚ) : Except SamplerError CustomSamplerState :=
  if nMoveOps ≠ nActingOn then .error .ConstructionError
  else if moveWeights = [] then .ok ⟨nMoveOps, List.replicate nMoveOps 1⟩
  else if moveWeights.length ≠ nMoveOps then .error .ConstructionError
  else .ok ⟨nMoveOps, moveWeights⟩

/-- C1: every one of the ten registered sampler variants binds exactly
the five methods of the `AbstractSampler` contract — `reset` (Reset),
`sweep` (Sweep), `get_visible` (Visible), `set_visible` (SetVisible) and
`acceptance` (Acceptance) — and no other method, so the contract is the
entire method surface of each sampler. -/
theorem samplers_expose_exactly_contract_methods :
    concreteSamplerNames.all (fun n =>
      match findClass n with
      | some b => b.methods = ADDSAMPLERMETHODS
      | none => false) = true := by
  decide

/-- C2 counterexample: the Hamiltonian sampler's operator argument is
bound under the keyword `hamiltonian`, not the `hamiltonian_operator`
name the spec's options table gives it, refuting the claim as stated. -/
theorem hamiltonian_arg_not_named_hamiltonian_operator :
    hasArgNamed "MetropolisHamiltonian" "hamiltonian_operator" = false ∧
    ctorArgNames "MetropolisHamiltonian" = some ["machine", "hamiltonian"] := by
  decide

/-- C2 amended: the Hop sampler's constructor requires exactly the three
arguments `graph`, `machine` and `d_max` (none optional), and the
Hamiltonian sampler's constructor requires exactly the two arguments
`machine` and `hamiltonian` (none optional) — the operator argument's
keyword is `hamiltonian`, not the spec table's `hamiltonian_operator`. -/
theorem hop_and_hamiltonian_ctor_args :
    (ctorArgNames "MetropolisHop" = some ["graph", "machine", "d_max"] ∧
     hasRequiredArg "MetropolisHop" "graph" = true ∧
     hasRequiredArg "MetropolisHop" "machine" = true ∧
     hasRequiredArg "MetropolisHop" "d_max" = true) ∧
    (ctorArgNames "MetropolisHamiltonian" = some ["machine", "hamiltonian"] ∧
     hasRequiredArg "MetropolisHamiltonian" "machine" = true ∧
     hasRequiredArg "MetropolisHamiltonian" "hamiltonian" = true) := by
  decide

/-- C3: the Exchange sampler's constructor requires `graph` and `machine`
and takes `d_max` as an optional argument defaulting to `1`. -/
theorem exchange_ctor_args :
    ctorArgNames "MetropolisExchange" = some ["graph", "machine", "d_max"] ∧
    hasRequiredArg "MetropolisExchange" "graph" = true ∧
    hasRequiredArg "MetropolisExchange" "machine" = true ∧
    argDefault "MetropolisExchange" "d_max" = some (some (.intLit 1)) := by
  decide

/-- C4: the ExchangePt sampler's constructor requires `graph` and
`machine` and takes two optional arguments, `d_max` defaulting to `1` and
`n_replicas` defaulting to `1`. -/
theorem exchangept_ctor_args :
    ctorArgNames "MetropolisExchangePt" =
      some ["graph", "machine", "d_max", "n_replicas"] ∧
    hasRequiredArg "MetropolisExchangePt" "graph" = true ∧
    hasRequiredArg "MetropolisExchangePt" "machine" = true ∧
    argDefault "MetropolisExchangePt" "d_max" = some (some (.intLit 1)) ∧
    argDefault "MetropolisExchangePt" "n_replicas" =
      some (some (.intLit 1)) := by
  decide

/-- C5 counterexample: the CustomSamplerPt constructor binds no argument
named `n_replicas` — its replica-count argument is keyed `nreplicas` —
refuting the claim that the replica count is accessible under the name
`n_replicas`. -/
theorem custompt_replica_arg_not_named_n_replicas :
    hasArgNamed "CustomSamplerPt" "n_replicas" = false ∧
    hasArgNamed "CustomSamplerPt" "nreplicas" = true := by
  decide

/-- C5 amended: the CustomSamplerPt constructor requires `machine`,
`move_operators`, `acting_on` and a replica count exposed under the
keyword `nreplicas` (not `n_replicas`), the replica count having no
default, while `move_weights` is optional: it defaults to the empty
vector, which the constructor treats as uniform weighting. -/
theorem custompt_ctor_args_amended :
    ctorArgNames "CustomSamplerPt" =
      some ["machine", "move_operators", "acting_on",
            "move_weights", "nreplicas"] ∧
    hasRequiredArg "CustomSamplerPt" "machine" = true ∧
    hasRequiredArg "CustomSamplerPt" "move_operators" = true ∧
    hasRequiredArg "CustomSamplerPt" "acting_on" = true ∧
    hasRequiredArg "CustomSamplerPt" "nreplicas" = true ∧
    argDefault "CustomSamplerPt" "move_weights" =
      some (some .emptyDoubleVector) ∧
    (∀ m : Nat, CustomSampler.construct m m [] =
      .ok ⟨m, List.replicate m 1⟩) := by
  refine ⟨by decide, by decide, by decide, by decide, by decide, by decide, ?_⟩
  intro m
  simp [CustomSampler.construct]

/-- C6: the Custom sampler's `move_weights` argument may be omitted — the
binding defaults it to an empty vector — and the constructor, given an
empty weight list, assigns every move operator the same selection
weight. -/
theorem custom_move_weights_optional_uniform :
    argDefault "CustomSampler" "move_weights" =
      some (some .emptyDoubleVector) ∧
    (∀ m : Nat, CustomSampler.construct m m [] =
      .ok ⟨m, List.replicate m 1⟩) := by
  refine ⟨by decide, ?_⟩
  intro m
  simp [CustomSampler.construct]

/-- C7: all four parallel-tempering variants are registered, constructing
with a replica count of zero fails with `ConstructionError`, and
constructing a Custom sampler whose `move_operators` and `acting_on`
collections have different lengths fails with `ConstructionError`; in
both cases no sampler state is produced. -/
theorem pt_zero_replicas_and_mismatch_fail :
    ptSamplerNames.all (fun n => (findClass n).isSome) = true ∧
    validateReplicas 0 = .error .ConstructionError ∧
    (∀ m a : Nat, ∀ w : List ℚ, m ≠ a →
      CustomSampler.construct m a w = .error .ConstructionError) := by
  refine ⟨by decide, by rfl, ?_⟩
  intro m a w h
  simp [CustomSampler.construct, h]

/-- Witness for C7 at a concrete mismatched input: two move operators but
one `acting_on` entry. -/
theorem pt_zero_replicas_and_mismatch_fail_witness :
    CustomSampler.construct 2 1 [] = .error .ConstructionError := by
  exact pt_zero_replicas_and_mismatch_fail.2.2 2 1 [] (by decide)

/-- C8: every one of the ten concrete sampler classes is registered with
the abstract `Sampler` class (`AbSamplerType`) as its base, so any
concrete variant can be passed where the abstract type is expected; the
abstract class itself is the only registration without that base. -/
theorem concrete_samplers_registered_with_base :
    concreteSamplerNames.all (fun n =>
      match findClass n with
      | some b => b.hasSamplerBase
      | none => false) = true ∧
    (AddSamplerModule.filter (fun b => !b.hasSamplerBase)).map
      ClassBinding.className = ["Sampler"] := by
  decide

/-- C9: the abstract base class `Sampler` is registered with the five
contract methods but no constructor, so it cannot be instantiated through
the public interface; the classes that do bind a constructor are exactly
the ten concrete variants. -/
theorem abstract_sampler_not_instantiable :
    findClass "Sampler" = some ⟨"Sampler", false, none, ADDSAMPLERMETHODS⟩ ∧
    (AddSamplerModule.filter (fun b => b.ctorArgs.isSome)).map
      ClassBinding.className = concreteSamplerNames := by
  decide

/-- C10: the CustomSamplerPt replica-count parameter is keyed `nreplicas`
— unlike the `n_replicas` keyword of every other parallel-tempering
variant — and has no default even though it follows the defaulted
`move_weights` parameter, so a caller must pass it by keyword or supply
`move_weights` positionally first. -/
theorem custompt_nreplicas_keyword_no_default :
    ctorArgNames "CustomSamplerPt" =
      some ["machine", "move_operators", "acting_on",
            "move_weights", "nreplicas"] ∧
    argDefault "CustomSamplerPt" "nreplicas" = some none ∧
    argDefault "CustomSamplerPt" "move_weights" =
      some (some .emptyDoubleVector) ∧
    hasArgNamed "CustomSamplerPt" "n_replicas" = false ∧
    (["MetropolisLocalPt", "MetropolisHamiltonianPt",
      "MetropolisExchangePt"].all (fun n =>
        hasArgNamed n "n_replicas" && !hasArgNamed n "nreplicas")) = true := by
  decide
